import Mathlib

/-!
Verification of the mmks automation scripts.

The repository contains three scripts driving a blockchain wallet:
`src/scripts/os.js` (multi-hop swap), `src/scripts/sonic.js` (stake/unstake
cycles), and an unnamed script `src/unnamed/part_000` (wrap + swap cycles).
This file gives a shallow embedding of the retry wrappers, the operation
runners, the randomized amount/delay generation, the cycle orchestration
loops and the process exit behaviour of those scripts, and proves
properties about them.

Modelling conventions:
* Remote calls are modelled by environments that supply the value each call
  would return (or the error it would throw), one environment per attempt
  where the code re-issues the calls on retry.
* JavaScript numbers used as counters/bounds are modelled as `Int`;
  monetary token quantities (BigNumber wei values) as `Nat`; the raw
  floating-point amounts fed to `toFixed(4)` as exact rationals `ℚ`.
* A thrown JS error is `Except.error`; `tx.wait()` resolving to a receipt
  is modelled as returning the receipt value, whose `status` field is `0`
  for a reverted-but-included transaction.
* Each function that submits transactions also returns the list of
  operation requests it submitted, so that which requests were built and
  with which amounts is observable in theorems.
-/

deriving instance DecidableEq for Except

/-- A transaction confirmation receipt: inclusion status flag
(`0` = reverted) and confirmation block number. -/
structure Receipt where
  status : Nat
  blockNumber : Nat
deriving DecidableEq, Repr

/-- A submitted-transaction handle: its hash and the outcome of awaiting
`tx.wait()` for its receipt. -/
structure TxResponse where
  hash : String
  waitResult : Except String Receipt
deriving DecidableEq, Repr

/-- An operation request as seen at submission time: its symbolic kind and
its amount in wei. -/
structure OpRequest where
  kind : String
  amount : Nat
deriving DecidableEq, Repr

namespace Os

/-- `MAX_RETRIES` in `src/scripts/os.js`. -/
def MAX_RETRIES : Int := 3

/-- The retry wrapper of `src/scripts/os.js`:

```js
async function withRetry(fn, retries = MAX_RETRIES, delay = RETRY_DELAY) {
  try { return await fn(); } catch (error) {
    if (retries > 0) {
      console.log(...); await sleep(delay);
      return await withRetry(fn, retries - 1, delay);
    }
    throw error;
  }
}
```

`ops i` is the outcome of the `i`-th invocation of `fn`; `k` is the index
of the next invocation (`0` at the top-level call).  The second component
of the result is the total number of invocations performed, counting from
invocation `0`.  The sleep between attempts is not modelled. -/
def withRetry {ε α : Type} (ops : Nat → Except ε α) (retries : Int) (k : Nat) :
    Except ε α × Nat :=
  match ops k with
  | Except.ok a => (Except.ok a, k + 1)
  | Except.error e =>
    if h : 0 < retries then
      withRetry ops (retries - 1) (k + 1)
    else
      (Except.error e, k + 1)
termination_by retries.toNat
decreasing_by simp_wf; omega

end Os

namespace Sonic

/-- `MAX_RETRIES` in `src/scripts/sonic.js`. -/
def MAX_RETRIES : Int := 3

/-- The retry wrapper of `src/scripts/sonic.js`:

```js
async function withRetry(operation, maxRetries = MAX_RETRIES) {
  let attempts = 0;
  while (attempts < maxRetries) {
    try { return await operation(); } catch (error) {
      attempts++;
      if (attempts >= maxRetries) throw error;
      const delayTime = Math.pow(2, attempts) * 1000;
      console.log(...); await delay(delayTime);
    }
  }
}
```

`ops i` is the outcome of the invocation made when `attempts = i`.  If the
`while` guard fails the JS function returns `undefined`, modelled as
`none`.  The second component counts the invocations performed.  The
exponential backoff sleep is not modelled. -/
def withRetry {ε α : Type} (ops : Nat → Except ε α) (attempts : Nat) (maxRetries : Int) :
    Option (Except ε α) × Nat :=
  if _h : (attempts : Int) < maxRetries then
    match ops attempts with
    | Except.ok a => (some (Except.ok a), attempts + 1)
    | Except.error e =>
      if _h2 : maxRetries ≤ (attempts : Int) + 1 then
        (some (Except.error e), attempts + 1)
      else
        withRetry ops (attempts + 1) maxRetries
  else
    (none, attempts)
termination_by (maxRetries - (attempts : Int)).toNat
decreasing_by simp_wf; omega

end Sonic

/-- JavaScript `x.toFixed(4)` on a nonnegative number, as the exact
rational it denotes: round to the nearest multiple of `1/10000`, halves
away from zero.  Both scripts use `toFixed(4)` on their random draws. -/
def jsToFixed4 (q : ℚ) : ℚ :=
  ((Int.floor (q * 10000 + 1 / 2) : Int) : ℚ) / 10000

/-- `getRandomAmount(min, max)` of `src/unnamed/part_000`:

```js
function getRandomAmount(min, max, decimals = 18) {
    const randomAmount = Math.random() * (max - min) + min;
    return ethers.utils.parseUnits(randomAmount.toFixed(4), decimals);
}
```

`r` models the `Math.random()` draw (a fresh value in `[0, 1)` for every
call).  The result is the token amount the produced wei value denotes. -/
def Unnamed.getRandomAmount (min max r : ℚ) : ℚ :=
  jsToFixed4 (r * (max - min) + min)

/-- `getRandomDelay(minMinutes, maxMinutes)` of `src/unnamed/part_000`
(and, with `minMinutes = 1`, `maxMinutes = 3`, the inlined constants of
`getRandomDelay` in `src/scripts/sonic.js`):

```js
function getRandomDelay(minMinutes, maxMinutes) {
    const minDelay = minMinutes * 60 * 1000;
    const maxDelay = maxMinutes * 60 * 1000;
    return Math.floor(Math.random() * (maxDelay - minDelay + 1) + minDelay);
}
```

`r` models the `Math.random()` draw; the result is in milliseconds. -/
def Unnamed.getRandomDelay (minMinutes maxMinutes : Nat) (r : ℚ) : Int :=
  Int.floor (r * ((maxMinutes * 60 * 1000 : Nat) - (minMinutes * 60 * 1000 : Nat) + 1 : ℚ)
    + ((minMinutes * 60 * 1000 : Nat) : ℚ))

/-- `getRandomAmount()` of `src/scripts/sonic.js`: a uniform draw between
`formatEther(MIN_STAKE_AMOUNT) = 0.01` and
`formatEther(MAX_STAKE_AMOUNT) = 0.05` wS, rounded via `toFixed(4)`. -/
def Sonic.getRandomAmount (r : ℚ) : ℚ :=
  jsToFixed4 (r * (5 / 100 - 1 / 100) + 1 / 100)

/-- `ethers.utils.parseEther`/`parseUnits(·, 18)` applied to a decimal
amount: the wei value `q * 10^18`, exact for amounts with at most four
decimal places as produced by `toFixed(4)`. -/
def ratToWei (q : ℚ) : Nat :=
  (Int.floor (q * 10 ^ 18)).toNat

/-- `ethers.constants.MaxUint256`: the withdraw-all / approve-all sentinel
amount. -/
def MaxUint256 : Nat := 2 ^ 256 - 1

namespace Os

/-- The three Beethoven-X pool ids of `src/scripts/os.js`. -/
def POOL_IDS : List String := [
  "0x203180225ebd6dbf1dc0ad41b1fe7deaf51031bf000200000000000000000078",
  "0x429685017af12b0c24e982ad66f71031f02bd4af0002000000000000000000ca",
  "0xf633a43e5ccf858a27dd1d74a23be15ea5aa28f30002000000000000000000c2"]

/-- One element of the `swaps` array passed to `batchSwap` (the constant
`userData: "0x"` field is omitted). -/
structure SwapStep where
  poolId : String
  assetInIndex : Nat
  assetOutIndex : Nat
  amount : Nat
deriving DecidableEq, Repr

/-- The `swaps` array built in `performSwap`:

```js
const swaps = POOL_IDS.slice(0, swapCount).map((poolId, i) => ({
  poolId, assetInIndex: i, assetOutIndex: i + 1,
  amount: i === 0 ? amountInWei.toString() : '0', userData: '0x'
}));
``` -/
def mkSwaps (swapCount : Nat) (amountInWei : Nat) : List SwapStep :=
  (POOL_IDS.take swapCount).enum.map (fun p =>
    { poolId := p.2, assetInIndex := p.1, assetOutIndex := p.1 + 1,
      amount := if p.1 = 0 then amountInWei else 0 })

/-- The external world as seen by one `performSwap` call: the wS balance
and vault allowance read for the wallet, and the outcome of each attempted
`approve` / `batchSwap` submission (indexed by retry attempt). -/
structure SwapEnv where
  balance : Nat
  allowance : Nat
  approveAttempts : Nat → Except String TxResponse
  batchSwapAttempts : Nat → Except String TxResponse

/-- Step 2 of `performSwap` (check and set allowance):

```js
const allowance = await wsToken.allowance(wallet.address, VAULT_ADDRESS);
if (allowance.lt(amountInWei)) {
  const approveTx = await withRetry(() => wsToken.approve(VAULT_ADDRESS, amountInWei, {...}));
  await approveTx.wait();
}
``` -/
def approvalStep (env : SwapEnv) (amountInWei : Nat) :
    Except String Unit × List OpRequest :=
  if env.allowance < amountInWei then
    match (Os.withRetry env.approveAttempts MAX_RETRIES 0).1 with
    | Except.error e => (Except.error e, [⟨"approve", amountInWei⟩])
    | Except.ok approveTx =>
      match approveTx.waitResult with
      | Except.error e => (Except.error e, [⟨"approve", amountInWei⟩])
      | Except.ok _ => (Except.ok (), [⟨"approve", amountInWei⟩])
  else (Except.ok (), [])

/-- `performSwap` of `src/scripts/os.js`: balance precondition, allowance
step, `swaps` construction, retried `batchSwap` submission, receipt wait,
and the `receipt.status === 0` check (`throw new Error('Transaction
failed')`).  Returns the outcome, the submitted requests, and the `swaps`
array that was built (empty when the function aborts before building
it). -/
def performSwap (env : SwapEnv) (amountInWei : Nat) (swapCount : Nat) :
    Except String Bool × List OpRequest × List SwapStep :=
  if env.balance < amountInWei then
    (Except.error "Insufficient balance", [], [])
  else
    match approvalStep env amountInWei with
    | (Except.error e, reqs) => (Except.error e, reqs, [])
    | (Except.ok _, reqs) =>
      let swaps := mkSwaps swapCount amountInWei
      match (Os.withRetry env.batchSwapAttempts MAX_RETRIES 0).1 with
      | Except.error e => (Except.error e, reqs ++ [⟨"swap", amountInWei⟩], swaps)
      | Except.ok swapTx =>
        match swapTx.waitResult with
        | Except.error e => (Except.error e, reqs ++ [⟨"swap", amountInWei⟩], swaps)
        | Except.ok receipt =>
          if receipt.status = 0 then
            (Except.error "Transaction failed", reqs ++ [⟨"swap", amountInWei⟩], swaps)
          else
            (Except.ok true, reqs ++ [⟨"swap", amountInWei⟩], swaps)

/-- One interactive answer, as the os.js parse pipeline sees it.  The
source applies `|| default` to the answer STRING before parsing
(`parseInt(await askQuestion(...) || 5)`), so only a blank answer (empty
string, falsy) gets the default; any other answer is parsed as-is, and
an answer `parseInt`/`parseFloat` cannot parse yields `NaN`. -/
inductive PromptInput (α : Type) where
  | blank : PromptInput α
  | parsed : α → PromptInput α
  | notNumeric : PromptInput α

/-- `Math.max(x, y)` on a JavaScript number `x` that may be `NaN`
(modelled `none`): `Math.max` returns `NaN` whenever an argument is
`NaN`. -/
def jsMax (x : Option Int) (y : Int) : Option Int :=
  match x with
  | none => none
  | some a => some (max a y)

/-- `Math.min(x, y)` on a JavaScript number that may be `NaN`;
`NaN` propagates as in `Os.jsMax`. -/
def jsMin (x : Option Int) (y : Int) : Option Int :=
  match x with
  | none => none
  | some a => some (min a y)

/-- `Math.max` for the float (amount) pipeline; `NaN` propagates. -/
def jsMaxQ (x : Option ℚ) (y : ℚ) : Option ℚ :=
  match x with
  | none => none
  | some a => some (max a y)

/-- `parseInt(s || d)` for prompt answer `s` and numeric default `d`: a
blank answer is falsy, so `parseInt` is applied to the default number
(whose decimal string parses back to itself); a non-blank answer is
parsed as-is, giving its value — including `0`, which is NOT replaced by
the default — or `NaN` (`none`). -/
def parseIntDefault (s : PromptInput Int) (d : Int) : Option Int :=
  match s with
  | .blank => some d
  | .parsed x => some x
  | .notNumeric => none

/-- `parseFloat(s || d)`, exactly as `Os.parseIntDefault`. -/
def parseFloatDefault (s : PromptInput ℚ) (d : ℚ) : Option ℚ :=
  match s with
  | .blank => some d
  | .parsed x => some x
  | .notNumeric => none

/-- `Math.max(parseInt(await askQuestion("Iterations per wallet? [default: 5] ") || 5), 1)`. -/
def iterationsInput (s : PromptInput Int) : Option Int := jsMax (parseIntDefault s 5) 1

/-- `Math.max(parseInt(await askQuestion("Interval in minutes? [default: 5] ") || 5), 1)`. -/
def intervalInput (s : PromptInput Int) : Option Int := jsMax (parseIntDefault s 5) 1

/-- `Math.max(parseFloat(await askQuestion("wS Token amount per swap? [default: 0.0001] ") || 0.0001), 0)`. -/
def amountInput (s : PromptInput ℚ) : Option ℚ := jsMaxQ (parseFloatDefault s (1 / 10000)) 0

/-- `Math.min(Math.max(parseInt(await askQuestion("Number of swaps (1-3)? [default: 3] ") || 3), 1), 3)`. -/
def hopsInput (s : PromptInput Int) : Option Int := jsMin (jsMax (parseIntDefault s 3) 1) 3

/-- The end argument of `POOL_IDS.slice(0, end)` (a length-3 array)
converted per `Array.prototype.slice`: `NaN` becomes `0`
(ToIntegerOrInfinity), a negative index counts from the end, and the
clamp to the length is performed by `Os.mkSwaps`'s `take`. -/
def sliceEnd3 (c : Option Int) : Nat :=
  match c with
  | none => 0
  | some x => if x < 0 then (3 + x).toNat else x.toNat

/-- The `swaps` array as built from the JS hop-count value, which may be
`NaN` when the hops prompt got a non-numeric answer:
`POOL_IDS.slice(0, NaN)` is empty. -/
def mkSwapsJs (c : Option Int) (amountInWei : Nat) : List SwapStep :=
  mkSwaps (sliceEnd3 c) amountInWei

end Os

namespace Sonic

/-- The external world as seen by one attempt of the `supplyWS` body: the
allowance read by `checkApproval` and the outcome of the approval it may
submit, the first field of `getReserveData` (availableLiquidity), the
three balances read by `checkBalances`, the `Math.random()` value of this
attempt's `getRandomAmount()` call, and the outcome of the `deposit`
submission. -/
structure SupplyEnv where
  allowance : Nat
  approveTx : Except String TxResponse
  reserveLiquidity : Nat
  ethBalance : Nat
  wsBalance : Nat
  aSonWsBalance : Nat
  rand : ℚ
  depositTx : Except String TxResponse

/-- `checkApproval` of `src/scripts/sonic.js`: when the allowance is below
`parseEther("10")` it submits an `approve` for `MaxUint256` and waits;
errors are logged and rethrown. -/
def checkApproval (env : SupplyEnv) : Except String Unit × List OpRequest :=
  if env.allowance < 10 * 10 ^ 18 then
    match env.approveTx with
    | Except.error e => (Except.error e, [⟨"approve", MaxUint256⟩])
    | Except.ok tx =>
      match tx.waitResult with
      | Except.error e => (Except.error e, [⟨"approve", MaxUint256⟩])
      | Except.ok _ => (Except.ok (), [⟨"approve", MaxUint256⟩])
  else (Except.ok (), [])

/-- `checkReserveStatus` of `src/scripts/sonic.js`:

```js
const reserveData = await lendingPool.getReserveData(WS_TOKEN_ADDRESS);
const isActive = reserveData[0] > 0;
if (!isActive) throw new Error("Reserve is not active");
``` -/
def checkReserveStatus (env : SupplyEnv) : Except String Nat :=
  if 0 < env.reserveLiquidity then Except.ok env.reserveLiquidity
  else Except.error "Reserve is not active"

/-- The body of `supplyWS` (the async closure handed to `withRetry`):
approval check, reserve-status check, balance reads, random stake amount,
wS-balance and gas-ETH preconditions, `deposit` submission, receipt wait,
and the `receipt.status === 0` check (`throw new Error("Transaction
reverted")`). -/
def supplyWSBody (env : SupplyEnv) : Except String (Receipt × Nat) × List OpRequest :=
  match checkApproval env with
  | (Except.error e, reqs) => (Except.error e, reqs)
  | (Except.ok _, reqs) =>
    match checkReserveStatus env with
    | Except.error e => (Except.error e, reqs)
    | Except.ok _ =>
      let stakeAmount := ratToWei (getRandomAmount env.rand)
      if env.wsBalance < stakeAmount then
        (Except.error "Insufficient wS balance for staking", reqs)
      else if env.ethBalance < 10 ^ 16 then
        (Except.error "Insufficient ETH for gas fees", reqs)
      else
        match env.depositTx with
        | Except.error e => (Except.error e, reqs ++ [⟨"deposit", stakeAmount⟩])
        | Except.ok tx =>
          match tx.waitResult with
          | Except.error e => (Except.error e, reqs ++ [⟨"deposit", stakeAmount⟩])
          | Except.ok receipt =>
            if receipt.status = 0 then
              (Except.error "Transaction reverted", reqs ++ [⟨"deposit", stakeAmount⟩])
            else
              (Except.ok (receipt, stakeAmount), reqs ++ [⟨"deposit", stakeAmount⟩])

/-- `supplyWS` of `src/scripts/sonic.js`: the body above wrapped in the
sonic retry wrapper with the default bound, one fresh environment per
attempt. -/
def supplyWS (envs : Nat → SupplyEnv) :
    Option (Except String (Receipt × Nat)) × Nat :=
  Sonic.withRetry (fun i => (supplyWSBody (envs i)).1) 0 MAX_RETRIES

/-- The external world as seen by one attempt of the `withdrawWS` body:
the aSonwS balance read by `checkBalances` and the outcome of the
`withdraw` submission. -/
structure WithdrawEnv where
  aSonWsBalance : Nat
  withdrawTx : Except String TxResponse

/-- The body of `withdrawWS` (the async closure handed to `withRetry`):
balance read, the `aSonWsBalance.lte(0)` precondition, the `withdraw`
submission with amount `ethers.constants.MaxUint256`, receipt wait, and
the `receipt.status === 0` check. -/
def withdrawWSBody (env : WithdrawEnv) : Except String Receipt × List OpRequest :=
  if env.aSonWsBalance ≤ 0 then
    (Except.error "No aSonwS tokens to unstake", [])
  else
    match env.withdrawTx with
    | Except.error e => (Except.error e, [⟨"withdraw", MaxUint256⟩])
    | Except.ok tx =>
      match tx.waitResult with
      | Except.error e => (Except.error e, [⟨"withdraw", MaxUint256⟩])
      | Except.ok receipt =>
        if receipt.status = 0 then
          (Except.error "Transaction reverted", [⟨"withdraw", MaxUint256⟩])
        else
          (Except.ok receipt, [⟨"withdraw", MaxUint256⟩])

/-- `withdrawWS` of `src/scripts/sonic.js`: the body above wrapped in the
sonic retry wrapper with the default bound. -/
def withdrawWS (envs : Nat → WithdrawEnv) :
    Option (Except String Receipt) × Nat :=
  Sonic.withRetry (fun i => (withdrawWSBody (envs i)).1) 0 MAX_RETRIES

end Sonic

namespace Unnamed

/-- The external world as seen by one `wrapSonic` call: the outcome of the
`deposit` (wrap) submission. -/
structure WrapEnv where
  depositTx : Except String TxResponse

/-- `wrapSonic` of `src/unnamed/part_000`:

```js
async function wrapSonic(amount) {
    try {
        const tx = await wSContract.deposit({ value: amount, gasLimit: 500000 });
        console.log(`✔️  Wrap successful`...);
        await tx.wait();
    } catch (error) { console.error("❌ Error wrapping:", error); }
}
```

Every error is caught and only logged, and the receipt of `tx.wait()` is
never examined, so the call always returns normally. -/
def wrapSonic (env : WrapEnv) (amount : Nat) : Except String Unit × List OpRequest :=
  match env.depositTx with
  | Except.error _ => (Except.ok (), [⟨"wrap", amount⟩])
  | Except.ok tx =>
    match tx.waitResult with
    | Except.error _ => (Except.ok (), [⟨"wrap", amount⟩])
    | Except.ok _ => (Except.ok (), [⟨"wrap", amount⟩])

/-- The external world as seen by one `swapOnBeets` call. -/
structure BeetsEnv where
  approveTx : Except String TxResponse
  swapTx : Except String TxResponse

/-- `swapOnBeets` of `src/unnamed/part_000`: approve (the token is never
the zero address at the call site), then `swap` on the Beets vault, then
`tx.wait()`; the whole body is in a try/catch that only logs, so the call
always returns normally and the receipt is never examined. -/
def swapOnBeets (env : BeetsEnv) (amountIn : Nat) (_minAmountOut : Nat) :
    Except String Unit × List OpRequest :=
  match env.approveTx with
  | Except.error _ => (Except.ok (), [⟨"approve", amountIn⟩])
  | Except.ok approveTx =>
    match approveTx.waitResult with
    | Except.error _ => (Except.ok (), [⟨"approve", amountIn⟩])
    | Except.ok _ =>
      match env.swapTx with
      | Except.error _ => (Except.ok (), [⟨"approve", amountIn⟩, ⟨"swap", amountIn⟩])
      | Except.ok _tx => (Except.ok (), [⟨"approve", amountIn⟩, ⟨"swap", amountIn⟩])

/-- The external world of one `executeSwapCycle`: the two `Math.random()`
draws for the wrap and swap amounts, and the two call environments. -/
structure CycleEnv where
  r1 : ℚ
  r2 : ℚ
  wrapEnv : WrapEnv
  beetsEnv : BeetsEnv

/-- `executeSwapCycle` of `src/unnamed/part_000`: wrap a random
`[0.01, 0.05]` amount, then swap a random `[0.005, 0.02]` amount with
`minAmountOut = swapAmount.div(2)` (50% slippage).  The trailing random
delay is not modelled. -/
def executeSwapCycle (env : CycleEnv) : Except String Unit × List OpRequest :=
  let wrapAmount := ratToWei (getRandomAmount (1 / 100) (5 / 100) env.r1)
  match wrapSonic env.wrapEnv wrapAmount with
  | (_, reqs1) =>
    let swapAmount := ratToWei (getRandomAmount (5 / 1000) (2 / 100) env.r2)
    let minAmountOut := swapAmount / 2
    match swapOnBeets env.beetsEnv swapAmount minAmountOut with
    | (_, reqs2) => (Except.ok (), reqs1 ++ reqs2)

end Unnamed

/-- Observable orchestrator events of one run: cycle `i` started, ended in
success or in a logged failure, and the inter-cycle wait was performed.
Cycle numbers are 1-based as in the scripts' log output. -/
inductive CycleEvent where
  | cycleStart : Nat → CycleEvent
  | cycleOk : Nat → CycleEvent
  | cycleFailed : Nat → CycleEvent
  | interCycleDelay : Nat → CycleEvent
deriving DecidableEq, Repr

namespace Sonic

/-- The cycle loop of `main` in `src/scripts/sonic.js`:

```js
for (let i = 1; i <= cycleCount; i++) {
  try {
    const { stakeAmount } = await supplyWS(i);
    ...await delay(...);
    await withdrawWS(i);
  } catch (error) { console.error(`❌ Cycle ${i} failed:`, error.message); }
  if (i < cycleCount) { ...await delay(getRandomDelay()); }
}
```

`body i` is the outcome of cycle `i`'s try-block (see `Sonic.cycleBody`);
the catch only logs, so a failing cycle never stops the loop. -/
def mainLoop (body : Nat → Except String Unit) (n : Nat) : List CycleEvent :=
  (List.range n).flatMap (fun k =>
    CycleEvent.cycleStart (k + 1) ::
      (match body (k + 1) with
       | Except.ok _ => [CycleEvent.cycleOk (k + 1)]
       | Except.error _ => [CycleEvent.cycleFailed (k + 1)]) ++
      (if k + 1 < n then [CycleEvent.interCycleDelay (k + 1)] else []))

/-- The try-block of one cycle of `main`: `supplyWS` then `withdrawWS`,
each with its per-attempt environments.  If `supplyWS` exhausts its
attempts the last error propagates; if its retry wrapper were to return
`undefined`, destructuring `const { stakeAmount } = ...` would throw a
`TypeError`.  The result of `withdrawWS` is not destructured. -/
def cycleBody (supEnvs : Nat → Nat → SupplyEnv) (wdEnvs : Nat → Nat → WithdrawEnv)
    (i : Nat) : Except String Unit :=
  match (supplyWS (supEnvs i)).1 with
  | none => Except.error "TypeError"
  | some (Except.error e) => Except.error e
  | some (Except.ok _) =>
    match (withdrawWS (wdEnvs i)).1 with
    | some (Except.error e) => Except.error e
    | _ => Except.ok ()

/-- Process-level behaviour of `src/scripts/sonic.js`.  The wallet is
constructed from `process.env.PRIVATE_KEY` at module load; a missing or
invalid key makes the `ethers.Wallet` constructor throw before any remote
call, and the uncaught module-level exception terminates node with exit
code 1.  Otherwise `main` runs the cycle loop and its `finally` block
always calls `process.exit(0)`.  Result: exit code and event trace (an
empty trace means no cycle, hence no network interaction, happened). -/
def processExit (privateKey : Option String) (body : Nat → Except String Unit)
    (n : Nat) : Nat × List CycleEvent :=
  match privateKey with
  | none => (1, [])
  | some _ => (0, mainLoop body n)

end Sonic

namespace Os

/-- The iteration loop of `processWallet` in `src/scripts/os.js`:

```js
for (let i = 1; i <= totalIterations; i++) {
  try { await performSwap(...); } catch (error) { console.error(...); }
  if (i < totalIterations) { ...await sleep(intervalMinutes * 60 * 1000); }
}
```

`body i` is the outcome of iteration `i`'s `performSwap`; the catch only
logs. -/
def processWallet (body : Nat → Except String Unit) (totalIterations : Nat) :
    List CycleEvent :=
  (List.range totalIterations).flatMap (fun k =>
    CycleEvent.cycleStart (k + 1) ::
      (match body (k + 1) with
       | Except.ok _ => [CycleEvent.cycleOk (k + 1)]
       | Except.error _ => [CycleEvent.cycleFailed (k + 1)]) ++
      (if k + 1 < totalIterations then [CycleEvent.interCycleDelay (k + 1)] else []))

/-- Process-level behaviour of `main` in `src/scripts/os.js`: an empty
`PRIVATE_KEYS` list throws before any prompt or provider use, all-invalid
keys throw after local-only wallet construction, and both are caught by
the outer catch which calls `process.exit(1)`.  Otherwise each valid
wallet's iteration loop runs to completion (every iteration error is
caught inside `processWallet`) and node exits normally with code 0.
`walletBody w i` is the outcome of iteration `i` of wallet `w`. -/
def mainExit (keys : List String) (validKey : String → Bool)
    (walletBody : Nat → Nat → Except String Unit) (iterations : Nat) :
    Nat × List CycleEvent :=
  if keys.length = 0 then (1, [])
  else
    let wallets := keys.filter validKey
    if wallets.length = 0 then (1, [])
    else
      (0, (List.range wallets.length).flatMap (fun w => processWallet (walletBody w) iterations))

end Os

/-- A concrete always-failing operation: invocation `i` throws the error
value `i + 10`. -/
def c1Ops : Nat → Except Nat Nat := fun i => Except.error (i + 10)
/-- A concrete always-succeeding operation returning 7. -/
def c5Ops : Nat → Except String Nat := fun _ => Except.ok 7
/-- Per-attempt environments exhibiting a reserve-inactive first attempt
followed by a fully successful second attempt of the `supplyWS` body. -/
def c4Envs : Nat → Sonic.SupplyEnv := fun i =>
  if i = 0 then
    { allowance := 10 ^ 20, approveTx := Except.error "unused",
      reserveLiquidity := 0, ethBalance := 10 ^ 18, wsBalance := 10 ^ 18,
      aSonWsBalance := 0, rand := 0, depositTx := Except.error "unused" }
  else
    { allowance := 10 ^ 20, approveTx := Except.error "unused",
      reserveLiquidity := 5, ethBalance := 10 ^ 18, wsBalance := 10 ^ 18,
      aSonWsBalance := 0, rand := 0, depositTx := Except.ok ⟨"0xdep", Except.ok ⟨1, 77⟩⟩ }
/-- A swap environment with zero wS balance and ample allowance whose
submissions all succeed. -/
def c7Env : Os.SwapEnv :=
  { balance := 0, allowance := 10 ^ 30,
    approveAttempts := fun _ => Except.error "unused",
    batchSwapAttempts := fun _ => Except.ok ⟨"0xswap", Except.ok ⟨1, 42⟩⟩ }
/-- A concrete supply environment with ample balances and a successful
deposit. -/
def c7SupplyEnv : Sonic.SupplyEnv :=
  { allowance := 10 ^ 20, approveTx := Except.error "unused",
    reserveLiquidity := 5, ethBalance := 10 ^ 18, wsBalance := 10 ^ 18,
    aSonWsBalance := 0, rand := 1 / 2, depositTx := Except.ok ⟨"0xdep", Except.ok ⟨1, 7⟩⟩ }

/-- The os.js retry wrapper called with retry parameter `r` and starting
index `k` stops after invocation index at most `k + r`. -/
theorem os_withRetry_count {ε α : Type} (ops : Nat → Except ε α) (r : Nat) :
    ∀ k, (Os.withRetry ops (r : Int) k).2 ≤ k + r + 1 := by
  induction r with
  | zero =>
    intro k
    rw [Os.withRetry.eq_def]
    split
    · simp
    · split
      · omega
      · simp
  | succ m ih =>
    intro k
    rw [Os.withRetry.eq_def]
    split
    · simp
    · split
      · have hc : ((m + 1 : Nat) : Int) - 1 = (m : Int) := by push_cast; ring
        rw [hc]
        have := ih (k + 1)
        omega
      · omega

/-- The os.js retry wrapper returns the first success immediately: if the
`d` invocations starting at `k` fail and invocation `k + d` succeeds
within the retry budget, the result is that success, unwrapped, after
invocation index `k + d`. -/
theorem os_withRetry_first_success {ε α : Type} (ops : Nat → Except ε α) (d : Nat) :
    ∀ (r k : Nat) (x : α), (∀ i, k ≤ i → i < k + d → ∃ e, ops i = Except.error e) →
      ops (k + d) = Except.ok x → d ≤ r →
      Os.withRetry ops (r : Int) k = (Except.ok x, k + d + 1) := by
  induction d with
  | zero =>
    intro r k x _hf hok _hdr
    have hk : ops k = Except.ok x := by simpa using hok
    rw [Os.withRetry.eq_def]
    simp only [hk]
  | succ m ih =>
    intro r k x hf hok hdr
    obtain ⟨e, he⟩ := hf k le_rfl (by omega)
    rw [Os.withRetry.eq_def]
    simp only [he]
    rw [dif_pos (show (0 : Int) < (r : Int) by omega)]
    have hr : ((r : Int) - 1) = ((r - 1 : Nat) : Int) := by omega
    rw [hr]
    have hok2 : ops (k + 1 + m) = Except.ok x := by
      have hi : k + 1 + m = k + (m + 1) := by omega
      rw [hi]; exact hok
    have hf2 : ∀ i, k + 1 ≤ i → i < k + 1 + m → ∃ e2, ops i = Except.error e2 := by
      intro i h1 h2
      exact hf i (by omega) (by omega)
    rw [ih (r - 1) (k + 1) x hf2 hok2 (by omega)]
    simp only [Prod.mk.injEq]
    exact ⟨trivial, by omega⟩

/-- The os.js retry wrapper with retry parameter `r`: if every invocation
from `k` to `k + r` fails, the result is exactly the outcome of invocation
`k + r` (the last error propagated unchanged), stopping there. -/
theorem os_withRetry_all_fail {ε α : Type} (ops : Nat → Except ε α) (r : Nat) :
    ∀ k, (∀ i, k ≤ i → i ≤ k + r → ∃ e, ops i = Except.error e) →
      Os.withRetry ops (r : Int) k = (ops (k + r), k + r + 1) := by
  induction r with
  | zero =>
    intro k hf
    obtain ⟨e, he⟩ := hf k le_rfl (by omega)
    rw [Os.withRetry.eq_def]
    simp only [he]
    rw [dif_neg (by omega)]
    simp [he]
  | succ m ih =>
    intro k hf
    obtain ⟨e, he⟩ := hf k le_rfl (by omega)
    rw [Os.withRetry.eq_def]
    simp only [he]
    rw [dif_pos (show (0 : Int) < ((m + 1 : Nat) : Int) by exact_mod_cast Nat.succ_pos m)]
    have hc : ((m + 1 : Nat) : Int) - 1 = (m : Int) := by push_cast; ring
    rw [hc]
    have hf2 : ∀ i, k + 1 ≤ i → i ≤ k + 1 + m → ∃ e2, ops i = Except.error e2 := by
      intro i h1 h2
      exact hf i (by omega) (by omega)
    rw [ih (k + 1) hf2]
    simp only [Prod.mk.injEq]
    constructor
    · congr 1; omega
    · omega

/-- The sonic.js retry wrapper with bound `N` performs at most `N`
invocations in total when started at any attempt index `a ≤ N`. -/
theorem sonic_withRetry_count {ε α : Type} (ops : Nat → Except ε α) (N : Nat) (d : Nat) :
    ∀ a, N ≤ a + d → a ≤ N → (Sonic.withRetry ops a (N : Int)).2 ≤ N := by
  induction d with
  | zero =>
    intro a h1 h2
    rw [Sonic.withRetry.eq_def]
    rw [dif_neg (by omega)]
    simpa using h2
  | succ m ih =>
    intro a h1 h2
    rw [Sonic.withRetry.eq_def]
    by_cases ha : a < N
    · rw [dif_pos (by omega)]
      cases h : ops a with
      | ok x => simpa using ha
      | error e =>
        simp only []
        by_cases hb : N ≤ a + 1
        · rw [dif_pos (by omega)]
          simpa using (by omega : a + 1 ≤ N)
        · rw [dif_neg (by omega)]
          exact ih (a + 1) (by omega) (by omega)
    · rw [dif_neg (by omega)]
      omega

/-- The sonic.js retry wrapper returns the first success immediately: if
attempts `a, ..., a + d - 1` fail and attempt `a + d < N` succeeds, the
result is that success after attempt index `a + d`. -/
theorem sonic_withRetry_first_success {ε α : Type} (ops : Nat → Except ε α) (N : Nat) (d : Nat) :
    ∀ (a : Nat) (x : α), a + d < N →
      (∀ i, a ≤ i → i < a + d → ∃ e, ops i = Except.error e) →
      ops (a + d) = Except.ok x →
      Sonic.withRetry ops a (N : Int) = (some (Except.ok x), a + d + 1) := by
  induction d with
  | zero =>
    intro a x hlt _hf hok
    have hk : ops a = Except.ok x := by simpa using hok
    rw [Sonic.withRetry.eq_def, dif_pos (by omega : ((a : Int) < (N : Int)))]
    simp only [hk]
  | succ m ih =>
    intro a x hlt hf hok
    obtain ⟨e, he⟩ := hf a le_rfl (by omega)
    rw [Sonic.withRetry.eq_def, dif_pos (by omega : ((a : Int) < (N : Int)))]
    simp only [he]
    rw [dif_neg (by omega)]
    have hok2 : ops (a + 1 + m) = Except.ok x := by
      have hi : a + 1 + m = a + (m + 1) := by omega
      rw [hi]; exact hok
    have hf2 : ∀ i, a + 1 ≤ i → i < a + 1 + m → ∃ e2, ops i = Except.error e2 := by
      intro i h1 h2
      exact hf i (by omega) (by omega)
    rw [ih (a + 1) x (by omega) hf2 hok2]
    simp only [Prod.mk.injEq, Option.some.injEq]
    exact ⟨trivial, by omega⟩

/-- The sonic.js retry wrapper with bound `N`: if every attempt from `a`
to `N - 1` fails, the result is exactly the outcome of attempt `N - 1`
(the last failure propagated unchanged) after `N` invocations. -/
theorem sonic_withRetry_all_fail {ε α : Type} (ops : Nat → Except ε α) (N : Nat) (d : Nat) :
    ∀ a, a + d + 1 = N → (∀ i, a ≤ i → i < N → ∃ e, ops i = Except.error e) →
      Sonic.withRetry ops a (N : Int) = (some (ops (N - 1)), N) := by
  induction d with
  | zero =>
    intro a hN hf
    obtain ⟨e, he⟩ := hf a le_rfl (by omega)
    rw [Sonic.withRetry.eq_def, dif_pos (by omega : ((a : Int) < (N : Int)))]
    simp only [he]
    rw [dif_pos (by omega)]
    have hN1 : N - 1 = a := by omega
    rw [hN1, he]
    simp only [Prod.mk.injEq]
    exact ⟨trivial, by omega⟩
  | succ m ih =>
    intro a hN hf
    obtain ⟨e, he⟩ := hf a le_rfl (by omega)
    rw [Sonic.withRetry.eq_def, dif_pos (by omega : ((a : Int) < (N : Int)))]
    simp only [he]
    rw [dif_neg (by omega)]
    exact ih (a + 1) (by omega) (fun i h1 h2 => hf i (by omega) h2)

/-- Rounding to four decimal places is monotone. -/
theorem jsToFixed4_mono {p q : ℚ} (h : p ≤ q) : jsToFixed4 p ≤ jsToFixed4 q := by
  unfold jsToFixed4
  have : Int.floor (p * 10000 + 1 / 2) ≤ Int.floor (q * 10000 + 1 / 2) := by
    apply Int.floor_le_floor
    nlinarith
  have hc : ((Int.floor (p * 10000 + 1 / 2) : Int) : ℚ) ≤
      ((Int.floor (q * 10000 + 1 / 2) : Int) : ℚ) := by exact_mod_cast this
  linarith

/-- Rounding to four decimal places fixes multiples of `1/10000`. -/
theorem jsToFixed4_grid (a : ℤ) : jsToFixed4 ((a : ℚ) / 10000) = (a : ℚ) / 10000 := by
  unfold jsToFixed4
  have h1 : ((a : ℚ) / 10000) * 10000 + 1 / 2 = (a : ℚ) + 1 / 2 := by
    field_simp
  rw [h1]
  have h2 : Int.floor ((a : ℚ) + 1 / 2) = a := by
    rw [Int.floor_eq_iff]
    constructor
    · linarith
    · linarith
  rw [h2]

/-- Rounding to four decimal places never exceeds an on-grid upper
bound. -/
theorem jsToFixed4_le_grid {q : ℚ} (b : ℤ) (h : q ≤ (b : ℚ) / 10000) :
    jsToFixed4 q ≤ (b : ℚ) / 10000 := by
  calc jsToFixed4 q ≤ jsToFixed4 ((b : ℚ) / 10000) := jsToFixed4_mono h
    _ = (b : ℚ) / 10000 := jsToFixed4_grid b

/-- Rounding to four decimal places never falls below an on-grid lower
bound. -/
theorem jsToFixed4_ge_grid {q : ℚ} (a : ℤ) (h : (a : ℚ) / 10000 ≤ q) :
    (a : ℚ) / 10000 ≤ jsToFixed4 q := by
  calc (a : ℚ) / 10000 = jsToFixed4 ((a : ℚ) / 10000) := (jsToFixed4_grid a).symm
    _ ≤ jsToFixed4 q := jsToFixed4_mono h

/-- The raw (pre-rounding) uniform draw stays inside `[min, max]` for any
`Math.random()` value `r ∈ [0, 1)`. -/
theorem raw_draw_bounds {min max r : ℚ} (hr0 : 0 ≤ r) (hr1 : r < 1) (hmm : min ≤ max) :
    min ≤ r * (max - min) + min ∧ r * (max - min) + min ≤ max := by
  constructor
  · nlinarith
  · nlinarith

/-- Claim C1 (counterexample): with attempt bound 1 the os.js `withRetry`
invokes the underlying operation twice, not at most once, and the error
it propagates is the one thrown by the second invocation — so the claim
"invokes the underlying operation at most N times ... after exactly N
attempts" is false for the recursive variant when `N` is the bound passed
to it. -/
theorem c1_counterexample :
    Os.withRetry c1Ops 1 0 = (Except.error 11, 2) ∧ ¬(2 ≤ 1) := by
  constructor
  · simp [Os.withRetry, c1Ops]
  · omega

/-- Claim C1 (amended): for every attempt bound `N ≥ 1` and every deferred
operation, the loop-based `withRetry` of sonic.js called with `N` invokes
the operation at most `N` times, returns the result of the first
successful invocation immediately, and if all `N` attempts fail it
propagates the last failure unchanged after exactly `N` attempts; the
recursion-based `withRetry` of os.js has the same property when called
with retry parameter `N - 1` (its parameter counts retries after the
first attempt, so passing `r` yields up to `r + 1` invocations). -/
theorem c1_retry_attempt_bound {ε α : Type} (ops : Nat → Except ε α) (N : Nat) (hN : 1 ≤ N) :
    ((Sonic.withRetry ops 0 (N : Int)).2 ≤ N
      ∧ (Os.withRetry ops ((N : Int) - 1) 0).2 ≤ N)
    ∧ (∀ (j : Nat) (x : α), j < N → (∀ i, i < j → ∃ e, ops i = Except.error e) →
        ops j = Except.ok x →
        Sonic.withRetry ops 0 (N : Int) = (some (Except.ok x), j + 1)
        ∧ Os.withRetry ops ((N : Int) - 1) 0 = (Except.ok x, j + 1))
    ∧ ((∀ i, i < N → ∃ e, ops i = Except.error e) →
        Sonic.withRetry ops 0 (N : Int) = (some (ops (N - 1)), N)
        ∧ Os.withRetry ops ((N : Int) - 1) 0 = (ops (N - 1), N)) := by
  have hcast : ((N : Int) - 1) = ((N - 1 : Nat) : Int) := by omega
  refine ⟨⟨?_, ?_⟩, ?_, ?_⟩
  · exact sonic_withRetry_count ops N N 0 (by omega) (by omega)
  · rw [hcast]
    have := os_withRetry_count ops (N - 1) 0
    omega
  · intro j x hj hf hok
    constructor
    · have := sonic_withRetry_first_success ops N j 0 x (by omega)
        (fun i h1 h2 => hf i (by omega)) (by simpa using hok)
      simpa using this
    · rw [hcast]
      have := os_withRetry_first_success ops j (N - 1) 0 x
        (fun i h1 h2 => hf i (by omega)) (by simpa using hok) (by omega)
      simpa using this
  · intro hf
    constructor
    · exact sonic_withRetry_all_fail ops N (N - 1) 0 (by omega)
        (fun i h1 h2 => hf i h2)
    · rw [hcast]
      have h := os_withRetry_all_fail ops (N - 1) 0 (fun i h1 h2 => hf i (by omega))
      have h2 : N - 1 + 1 = N := by omega
      simpa [h2] using h

/-- Witness for `c1_retry_attempt_bound` at `N = 2` with the concrete
always-failing operation `c1Ops`. -/
theorem c1_retry_attempt_bound_witness :
    1 ≤ 2 ∧
    (((Sonic.withRetry c1Ops 0 ((2 : Nat) : Int)).2 ≤ 2
      ∧ (Os.withRetry c1Ops (((2 : Nat) : Int) - 1) 0).2 ≤ 2)
    ∧ (∀ (j : Nat) (x : Nat), j < 2 → (∀ i, i < j → ∃ e, c1Ops i = Except.error e) →
        c1Ops j = Except.ok x →
        Sonic.withRetry c1Ops 0 ((2 : Nat) : Int) = (some (Except.ok x), j + 1)
        ∧ Os.withRetry c1Ops (((2 : Nat) : Int) - 1) 0 = (Except.ok x, j + 1))
    ∧ ((∀ i, i < 2 → ∃ e, c1Ops i = Except.error e) →
        Sonic.withRetry c1Ops 0 ((2 : Nat) : Int) = (some (c1Ops (2 - 1)), 2)
        ∧ Os.withRetry c1Ops (((2 : Nat) : Int) - 1) 0 = (c1Ops (2 - 1), 2))) :=
  ⟨by decide, c1_retry_attempt_bound c1Ops 2 (by decide)⟩

/-- Claim C5 (counterexample): with attempt bound 0 neither variant fails
fast as a construction error: the sonic.js `withRetry` silently returns
`undefined` without ever executing the operation, and the os.js
`withRetry` silently executes the operation exactly once. -/
theorem c5_counterexample :
    Sonic.withRetry (fun _ => (Except.error "boom" : Except String Nat)) 0 0 = (none, 0)
    ∧ Os.withRetry c5Ops 0 0 = (Except.ok 7, 1) := by
  constructor
  · simp [Sonic.withRetry]
  · simp [Os.withRetry, c5Ops]

/-- Claim C5 (amended): a zero or negative attempt bound is not validated
by either variant: the loop-based `withRetry` of sonic.js silently
returns `undefined` (`none`) without executing the operation, and the
recursion-based `withRetry` of os.js silently executes the operation
exactly once and returns its outcome unchanged. -/
theorem c5_nonpositive_bound {ε α : Type} (ops : Nat → Except ε α) (b : Int) (hb : b ≤ 0) :
    Sonic.withRetry ops 0 b = (none, 0) ∧ Os.withRetry ops b 0 = (ops 0, 1) := by
  constructor
  · rw [Sonic.withRetry.eq_def, dif_neg (by exact_mod_cast hb.not_lt)]
  · rw [Os.withRetry.eq_def]
    cases h : ops 0 with
    | ok a => simp [h]
    | error e =>
      simp only [h]
      rw [dif_neg (by omega)]

/-- Witness for `c5_nonpositive_bound` at bound `-2` with the concrete
operation `c5Ops`. -/
theorem c5_nonpositive_bound_witness :
    (-2 : Int) ≤ 0 ∧
    (Sonic.withRetry c5Ops 0 (-2) = (none, 0)
      ∧ Os.withRetry c5Ops (-2) 0 = (c5Ops 0, 1)) :=
  ⟨by decide, c5_nonpositive_bound c5Ops (-2) (by decide)⟩

/-- Claim C6 (counterexample): for the configured interval
`[0.0001, 0.00017]` (with `min ≤ max`) and `Math.random() = 6/7 ∈ [0,1)`,
`getRandomAmount` of `src/unnamed/part_000` produces `0.0002`, which lies
strictly above `max`: the `toFixed(4)` rounding can push a draw outside
the interval when the bounds are not multiples of `0.0001`. -/
theorem c6_counterexample :
    (1 / 10000 : ℚ) ≤ 17 / 100000
    ∧ (0 : ℚ) ≤ 6 / 7 ∧ (6 / 7 : ℚ) < 1
    ∧ Unnamed.getRandomAmount (1 / 10000) (17 / 100000) (6 / 7) = 1 / 5000
    ∧ ¬(Unnamed.getRandomAmount (1 / 10000) (17 / 100000) (6 / 7) ≤ 17 / 100000) := by
  refine ⟨by norm_num, by norm_num, by norm_num, ?_, ?_⟩
  · unfold Unnamed.getRandomAmount jsToFixed4
    norm_num
  · unfold Unnamed.getRandomAmount jsToFixed4
    norm_num

/-- Claim C6 (amended): every randomized draw stays within its configured
closed interval provided the interval's endpoints are multiples of
`0.0001` — which holds for every interval these scripts configure
(`[0.01, 0.05]` and `[0.005, 0.02]` token amounts, and minute-valued delay
ranges); the delay draw respects its bounds for arbitrary
`min ≤ max`; and the draw is a function of the per-call `Math.random()`
value, and two draws with different random inputs can differ (nothing is
cached). -/
theorem c6_random_draw_bounds :
    (∀ (a b : ℤ) (r : ℚ), 0 ≤ r → r < 1 → (a : ℚ) / 10000 ≤ (b : ℚ) / 10000 →
      (a : ℚ) / 10000 ≤ Unnamed.getRandomAmount ((a : ℚ) / 10000) ((b : ℚ) / 10000) r
      ∧ Unnamed.getRandomAmount ((a : ℚ) / 10000) ((b : ℚ) / 10000) r ≤ (b : ℚ) / 10000)
    ∧ (∀ r : ℚ, 0 ≤ r → r < 1 →
      1 / 100 ≤ Sonic.getRandomAmount r ∧ Sonic.getRandomAmount r ≤ 5 / 100)
    ∧ (∀ (mn mx : Nat) (r : ℚ), 0 ≤ r → r < 1 → mn ≤ mx →
      ((mn * 60 * 1000 : Nat) : Int) ≤ Unnamed.getRandomDelay mn mx r
      ∧ Unnamed.getRandomDelay mn mx r ≤ ((mx * 60 * 1000 : Nat) : Int))
    ∧ (∃ r₁ r₂ : ℚ, 0 ≤ r₁ ∧ r₁ < 1 ∧ 0 ≤ r₂ ∧ r₂ < 1
      ∧ Sonic.getRandomAmount r₁ ≠ Sonic.getRandomAmount r₂) := by
  refine ⟨?_, ?_, ?_, ?_⟩
  · intro a b r h0 h1 hab
    obtain ⟨hlo, hhi⟩ := raw_draw_bounds h0 h1 hab
    unfold Unnamed.getRandomAmount
    exact ⟨jsToFixed4_ge_grid a hlo, jsToFixed4_le_grid b hhi⟩
  · intro r h0 h1
    have e1 : ((100 : ℤ) : ℚ) / 10000 = 1 / 100 := by norm_num
    have e2 : ((500 : ℤ) : ℚ) / 10000 = 5 / 100 := by norm_num
    obtain ⟨hlo, hhi⟩ := raw_draw_bounds h0 h1 (by norm_num : (1 / 100 : ℚ) ≤ 5 / 100)
    constructor
    · unfold Sonic.getRandomAmount
      rw [← e1]
      exact jsToFixed4_ge_grid 100 (by rw [e1]; exact hlo)
    · unfold Sonic.getRandomAmount
      rw [← e2]
      exact jsToFixed4_le_grid 500 (by rw [e2]; exact hhi)
  · intro mn mx r h0 h1 hmm
    have hc : (mn : ℚ) ≤ (mx : ℚ) := by exact_mod_cast hmm
    unfold Unnamed.getRandomDelay
    constructor
    · rw [Int.le_floor]
      push_cast
      nlinarith [mul_nonneg h0
        (show (0 : ℚ) ≤ (mx : ℚ) * 60 * 1000 - (mn : ℚ) * 60 * 1000 + 1 by nlinarith)]
    · have hfl : Int.floor (r * (((mx * 60 * 1000 : Nat) : ℚ) - ((mn * 60 * 1000 : Nat) : ℚ) + 1)
          + ((mn * 60 * 1000 : Nat) : ℚ)) < ((mx * 60 * 1000 : Nat) : Int) + 1 := by
        rw [Int.floor_lt]
        push_cast
        nlinarith [mul_lt_mul_of_pos_right h1
          (show (0 : ℚ) < (mx : ℚ) * 60 * 1000 - (mn : ℚ) * 60 * 1000 + 1 by nlinarith)]
      omega
  · refine ⟨0, 1 / 2, by norm_num, by norm_num, by norm_num, by norm_num, ?_⟩
    unfold Sonic.getRandomAmount jsToFixed4
    norm_num

/-- Witness for `c6_random_draw_bounds`: the sonic draw at
`Math.random() = 1/2` lies in `[0.01, 0.05]`. -/
theorem c6_random_draw_bounds_witness :
    (0 : ℚ) ≤ 1 / 2 ∧ (1 / 2 : ℚ) < 1
    ∧ (1 / 100 ≤ Sonic.getRandomAmount (1 / 2) ∧ Sonic.getRandomAmount (1 / 2) ≤ 5 / 100) :=
  ⟨by norm_num, by norm_num, c6_random_draw_bounds.2.1 (1 / 2) (by norm_num) (by norm_num)⟩

/-- Claim C2 (counterexample): `wrapSonic` of `src/unnamed/part_000`
treats a submitted wrap whose confirmation receipt carries status 0
(reverted) as a normal return, not as a failure: the receipt status is
never examined and the catch block swallows every error. -/
theorem c2_counterexample :
    (⟨0, 100⟩ : Receipt).status = 0
    ∧ Unnamed.wrapSonic ⟨Except.ok ⟨"0xwrap", Except.ok ⟨0, 100⟩⟩⟩ 5
      = (Except.ok (), [⟨"wrap", 5⟩]) := by
  exact ⟨rfl, rfl⟩

/-- Claim C2 (amended): a confirmation receipt with reverted status
(status flag 0) is treated as a failure — never a success — by the swap
(`performSwap`, os.js), deposit/stake (`supplyWS` body, sonic.js) and
withdraw/unstake (`withdrawWS` body, sonic.js) operations: each of these
returns success only if the receipt it awaited has a non-zero status.
The wrap operation of the unnamed script is the exception: it never
examines the receipt and swallows all errors. -/
theorem c2_reverted_is_failure :
    (∀ (env : Os.SwapEnv) (amt c : Nat) (b : Bool),
      (Os.performSwap env amt c).1 = Except.ok b →
      ∃ tx r, (Os.withRetry env.batchSwapAttempts Os.MAX_RETRIES 0).1 = Except.ok tx
        ∧ tx.waitResult = Except.ok r ∧ r.status ≠ 0)
    ∧ (∀ (env : Sonic.SupplyEnv) (v : Receipt × Nat),
      (Sonic.supplyWSBody env).1 = Except.ok v →
      ∃ tx, env.depositTx = Except.ok tx
        ∧ tx.waitResult = Except.ok v.1 ∧ v.1.status ≠ 0)
    ∧ (∀ (env : Sonic.WithdrawEnv) (v : Receipt),
      (Sonic.withdrawWSBody env).1 = Except.ok v →
      ∃ tx, env.withdrawTx = Except.ok tx
        ∧ tx.waitResult = Except.ok v ∧ v.status ≠ 0) := by
  refine ⟨?_, ?_, ?_⟩
  · intro env amt c b h
    unfold Os.performSwap at h
    by_cases hb : env.balance < amt
    · rw [if_pos hb] at h
      simp at h
    · rw [if_neg hb] at h
      cases hap : Os.approvalStep env amt with
      | mk res reqs =>
        rw [hap] at h
        cases res with
        | error e => simp at h
        | ok u =>
          simp only [] at h
          cases hsw : (Os.withRetry env.batchSwapAttempts Os.MAX_RETRIES 0).1 with
          | error e => rw [hsw] at h; simp at h
          | ok tx =>
            rw [hsw] at h
            simp only [] at h
            cases hw : tx.waitResult with
            | error e => rw [hw] at h; simp at h
            | ok r =>
              rw [hw] at h
              simp only [] at h
              by_cases hst : r.status = 0
              · rw [if_pos hst] at h; simp at h
              · rw [if_neg hst] at h
                exact ⟨tx, r, rfl, hw, hst⟩
  · intro env v h
    unfold Sonic.supplyWSBody at h
    cases hap : Sonic.checkApproval env with
    | mk res reqs =>
      rw [hap] at h
      cases res with
      | error e => simp at h
      | ok u =>
        simp only [] at h
        cases hres : Sonic.checkReserveStatus env with
        | error e => rw [hres] at h; simp at h
        | ok liq =>
          rw [hres] at h
          simp only [] at h
          by_cases h1 : env.wsBalance < ratToWei (Sonic.getRandomAmount env.rand)
          · rw [if_pos h1] at h; simp at h
          · rw [if_neg h1] at h
            by_cases h2 : env.ethBalance < 10 ^ 16
            · rw [if_pos h2] at h; simp at h
            · rw [if_neg h2] at h
              cases hdep : env.depositTx with
              | error e => rw [hdep] at h; simp at h
              | ok tx =>
                rw [hdep] at h
                simp only [] at h
                cases hw : tx.waitResult with
                | error e => rw [hw] at h; simp at h
                | ok r =>
                  rw [hw] at h
                  simp only [] at h
                  by_cases hst : r.status = 0
                  · rw [if_pos hst] at h; simp at h
                  · rw [if_neg hst] at h
                    simp only [Prod.fst] at h
                    cases h
                    exact ⟨tx, rfl, hw, hst⟩
  · intro env v h
    unfold Sonic.withdrawWSBody at h
    by_cases h0 : env.aSonWsBalance ≤ 0
    · rw [if_pos h0] at h; simp at h
    · rw [if_neg h0] at h
      cases hwd : env.withdrawTx with
      | error e => rw [hwd] at h; simp at h
      | ok tx =>
        rw [hwd] at h
        simp only [] at h
        cases hw : tx.waitResult with
        | error e => rw [hw] at h; simp at h
        | ok r =>
          rw [hw] at h
          simp only [] at h
          by_cases hst : r.status = 0
          · rw [if_pos hst] at h; simp at h
          · rw [if_neg hst] at h
            simp only [Prod.fst] at h
            cases h
            exact ⟨tx, rfl, hw, hst⟩

/-- Witness for `c2_reverted_is_failure`: a concrete successful withdraw
(receipt status 1) satisfies the withdraw conjunct. -/
theorem c2_reverted_is_failure_witness :
    (Sonic.withdrawWSBody ⟨5, Except.ok ⟨"0xwd", Except.ok ⟨1, 9⟩⟩⟩).1 = Except.ok ⟨1, 9⟩
    ∧ (∃ tx, (⟨5, Except.ok ⟨"0xwd", Except.ok ⟨1, 9⟩⟩⟩ : Sonic.WithdrawEnv).withdrawTx
          = Except.ok tx
        ∧ tx.waitResult = Except.ok (⟨1, 9⟩ : Receipt) ∧ (⟨1, 9⟩ : Receipt).status ≠ 0) :=
  ⟨by rfl, c2_reverted_is_failure.2.2 ⟨5, Except.ok ⟨"0xwd", Except.ok ⟨1, 9⟩⟩⟩ ⟨1, 9⟩ (by rfl)⟩

/-- The sonic random stake draw at `Math.random() = 0` is `0.01` wS, i.e.
`10^16` wei. -/
theorem c4_stake_eval : ratToWei (Sonic.getRandomAmount 0) = 10 ^ 16 := by
  unfold ratToWei Sonic.getRandomAmount jsToFixed4
  norm_num
  rfl

/-- Attempt 0 of the counterexample run fails the reserve-status
precondition before submitting anything. -/
theorem c4_body0_eval :
    Sonic.supplyWSBody (c4Envs 0) = (Except.error "Reserve is not active", []) := by
  unfold Sonic.supplyWSBody Sonic.checkApproval Sonic.checkReserveStatus c4Envs
  norm_num

/-- Attempt 1 of the counterexample run succeeds with a status-1 receipt
and the `0.01` wS stake. -/
theorem c4_body1_eval :
    (Sonic.supplyWSBody (c4Envs 1)).1 = Except.ok (⟨1, 77⟩, 10 ^ 16) := by
  have h1 : c4Envs 1 =
      { allowance := 10 ^ 20, approveTx := Except.error "unused",
        reserveLiquidity := 5, ethBalance := 10 ^ 18, wsBalance := 10 ^ 18,
        aSonWsBalance := 0, rand := 0, depositTx := Except.ok ⟨"0xdep", Except.ok ⟨1, 77⟩⟩ } := by
    norm_num [c4Envs]
  rw [h1]
  norm_num [Sonic.supplyWSBody, Sonic.checkApproval, Sonic.checkReserveStatus, c4_stake_eval]

/-- Claim C4 (counterexample): the reserve-active precondition failure is
not a hard stop.  With per-attempt environments `c4Envs` (reserve
inactive on attempt 0, everything fine on attempt 1), the `supplyWS` body
fails its reserve check on attempt 0, yet `supplyWS` retries and returns
success after 2 invocations — the operation was re-attempted (with a
freshly drawn amount) after the precondition failure. -/
theorem c4_counterexample :
    (Sonic.supplyWSBody (c4Envs 0)).1 = Except.error "Reserve is not active"
    ∧ Sonic.supplyWS c4Envs = (some (Except.ok (⟨1, 77⟩, 10 ^ 16)), 2) := by
  constructor
  · rw [c4_body0_eval]
  · unfold Sonic.supplyWS
    have hM : Sonic.MAX_RETRIES = ((3 : Nat) : Int) := by norm_num [Sonic.MAX_RETRIES]
    rw [hM]
    have h := sonic_withRetry_first_success (fun i => (Sonic.supplyWSBody (c4Envs i)).1) 3 1 0
      (⟨1, 77⟩, 10 ^ 16) (by omega) ?_ ?_
    · simpa using h
    · intro i hi1 hi2
      have hi0 : i = 0 := by omega
      subst hi0
      refine ⟨"Reserve is not active", ?_⟩
      show (Sonic.supplyWSBody (c4Envs 0)).1 = _
      rw [c4_body0_eval]
    · show (Sonic.supplyWSBody (c4Envs (0 + 1))).1 = _
      simpa using c4_body1_eval

/-- Claim C4 (amended): the reserve-active precondition is checked before
the deposit is built and submitted — when it fails, that attempt raises
"Reserve is not active" and submits nothing — but its failure is retried
by the retry wrapper identically to any other failure, not treated as a
hard stop: if attempt 0 fails the reserve check and attempt 1 succeeds,
`supplyWS` returns attempt 1's success after two invocations (each
attempt re-drawing its random amount). -/
theorem c4_reserve_retry (envs : Nat → Sonic.SupplyEnv) (v : Receipt × Nat)
    (hallow : ¬ (envs 0).allowance < 10 * 10 ^ 18)
    (hres : (envs 0).reserveLiquidity = 0)
    (h1 : (Sonic.supplyWSBody (envs 1)).1 = Except.ok v) :
    (Sonic.supplyWSBody (envs 0)).1 = Except.error "Reserve is not active"
    ∧ (Sonic.supplyWSBody (envs 0)).2 = []
    ∧ Sonic.supplyWS envs = (some (Except.ok v), 2) := by
  have hbody : Sonic.supplyWSBody (envs 0) = (Except.error "Reserve is not active", []) := by
    unfold Sonic.supplyWSBody Sonic.checkApproval Sonic.checkReserveStatus
    rw [if_neg hallow]
    simp only []
    rw [hres]
    norm_num
  refine ⟨by rw [hbody], by rw [hbody], ?_⟩
  unfold Sonic.supplyWS
  have hM : Sonic.MAX_RETRIES = ((3 : Nat) : Int) := by norm_num [Sonic.MAX_RETRIES]
  rw [hM]
  have h := sonic_withRetry_first_success (fun i => (Sonic.supplyWSBody (envs i)).1) 3 1 0 v
    (by omega) ?_ ?_
  · simpa using h
  · intro i hi1 hi2
    have hi0 : i = 0 := by omega
    subst hi0
    refine ⟨"Reserve is not active", ?_⟩
    show (Sonic.supplyWSBody (envs 0)).1 = _
    rw [hbody]
  · show (Sonic.supplyWSBody (envs (0 + 1))).1 = _
    simpa using h1

/-- Witness for `c4_reserve_retry` at the concrete environments
`c4Envs`. -/
theorem c4_reserve_retry_witness :
    (¬ (c4Envs 0).allowance < 10 * 10 ^ 18)
    ∧ (c4Envs 0).reserveLiquidity = 0
    ∧ (Sonic.supplyWSBody (c4Envs 1)).1 = Except.ok (⟨1, 77⟩, 10 ^ 16)
    ∧ ((Sonic.supplyWSBody (c4Envs 0)).1 = Except.error "Reserve is not active"
      ∧ (Sonic.supplyWSBody (c4Envs 0)).2 = []
      ∧ Sonic.supplyWS c4Envs = (some (Except.ok (⟨1, 77⟩, 10 ^ 16)), 2)) :=
  ⟨by norm_num [c4Envs], by norm_num [c4Envs], c4_body1_eval,
    c4_reserve_retry c4Envs (⟨1, 77⟩, 10 ^ 16) (by norm_num [c4Envs]) (by norm_num [c4Envs])
      c4_body1_eval⟩

/-- The requests submitted by the `withdrawWS` body: nothing when the
aSonwS balance is zero, exactly one withdraw-all request otherwise. -/
theorem withdrawWSBody_reqs (env : Sonic.WithdrawEnv) :
    (Sonic.withdrawWSBody env).2 =
      if env.aSonWsBalance ≤ 0 then [] else [⟨"withdraw", MaxUint256⟩] := by
  unfold Sonic.withdrawWSBody
  by_cases h0 : env.aSonWsBalance ≤ 0
  · simp only [if_pos h0]
  · simp only [if_neg h0]
    cases hwd : env.withdrawTx with
    | error e => rfl
    | ok tx =>
      simp only []
      cases hw : tx.waitResult with
      | error e => rfl
      | ok r =>
        simp only []
        split
        · rfl
        · rfl

/-- Claim C9: every unstake/withdraw submission requests the maximum
256-bit sentinel amount (withdraw-all), independently of any amount
staked earlier (the body takes no stake parameter at all), and the only
precondition it checks before submitting is that the aSonwS receipt-token
balance is strictly positive: a positive balance always leads to exactly
the withdraw-all request being submitted, and a zero balance raises
"No aSonwS tokens to unstake" with no submission. -/
theorem c9_withdraw_sentinel (env : Sonic.WithdrawEnv) :
    MaxUint256 = 2 ^ 256 - 1
    ∧ (∀ req ∈ (Sonic.withdrawWSBody env).2, req.kind = "withdraw" ∧ req.amount = MaxUint256)
    ∧ (0 < env.aSonWsBalance → (Sonic.withdrawWSBody env).2 = [⟨"withdraw", MaxUint256⟩])
    ∧ (env.aSonWsBalance = 0 →
        Sonic.withdrawWSBody env = (Except.error "No aSonwS tokens to unstake", [])) := by
  refine ⟨rfl, ?_, ?_, ?_⟩
  · intro req hreq
    rw [withdrawWSBody_reqs] at hreq
    by_cases h0 : env.aSonWsBalance ≤ 0
    · rw [if_pos h0] at hreq
      simp at hreq
    · rw [if_neg h0] at hreq
      simp at hreq
      subst hreq
      exact ⟨rfl, rfl⟩
  · intro h
    rw [withdrawWSBody_reqs, if_neg (by omega)]
  · intro h
    unfold Sonic.withdrawWSBody
    rw [if_pos (by omega)]

/-- Witness for `c9_withdraw_sentinel` at a concrete environment with a
positive receipt-token balance. -/
theorem c9_withdraw_sentinel_witness :
    MaxUint256 = 2 ^ 256 - 1
    ∧ (∀ req ∈ (Sonic.withdrawWSBody ⟨3, Except.ok ⟨"0xwd", Except.ok ⟨1, 5⟩⟩⟩).2,
        req.kind = "withdraw" ∧ req.amount = MaxUint256)
    ∧ (0 < (⟨3, Except.ok ⟨"0xwd", Except.ok ⟨1, 5⟩⟩⟩ : Sonic.WithdrawEnv).aSonWsBalance →
        (Sonic.withdrawWSBody ⟨3, Except.ok ⟨"0xwd", Except.ok ⟨1, 5⟩⟩⟩).2
          = [⟨"withdraw", MaxUint256⟩])
    ∧ ((⟨3, Except.ok ⟨"0xwd", Except.ok ⟨1, 5⟩⟩⟩ : Sonic.WithdrawEnv).aSonWsBalance = 0 →
        Sonic.withdrawWSBody ⟨3, Except.ok ⟨"0xwd", Except.ok ⟨1, 5⟩⟩⟩
          = (Except.error "No aSonwS tokens to unstake", [])) :=
  c9_withdraw_sentinel ⟨3, Except.ok ⟨"0xwd", Except.ok ⟨1, 5⟩⟩⟩

/-- The requests submitted by the os.js approval step: exactly one
approve request when the allowance is insufficient, nothing otherwise. -/
theorem approvalStep_reqs (env : Os.SwapEnv) (amt : Nat) :
    (Os.approvalStep env amt).2 =
      if env.allowance < amt then [⟨"approve", amt⟩] else [] := by
  unfold Os.approvalStep
  by_cases h : env.allowance < amt
  · simp only [if_pos h]
    cases hap : (Os.withRetry env.approveAttempts Os.MAX_RETRIES 0).1 with
    | error e => rfl
    | ok tx =>
      simp only []
      cases hw : tx.waitResult with
      | error e => rfl
      | ok r => rfl
  · simp only [if_neg h]

/-- The requests submitted by sonic.js `checkApproval`: exactly one
approve request (for `MaxUint256`) when the allowance is below 10 wS,
nothing otherwise. -/
theorem checkApproval_reqs (env : Sonic.SupplyEnv) :
    (Sonic.checkApproval env).2 =
      if env.allowance < 10 * 10 ^ 18 then [⟨"approve", MaxUint256⟩] else [] := by
  unfold Sonic.checkApproval
  by_cases h : env.allowance < 10 * 10 ^ 18
  · simp only [if_pos h]
    cases hap : env.approveTx with
    | error e => rfl
    | ok tx =>
      simp only []
      cases hw : tx.waitResult with
      | error e => rfl
      | ok r => rfl
  · simp only [if_neg h]

/-- The sonic stake draw is at least `0.01` wS (`10^16` wei) for any
nonnegative `Math.random()` value. -/
theorem sonic_stake_wei_pos {r : ℚ} (hr : 0 ≤ r) :
    10 ^ 16 ≤ ratToWei (Sonic.getRandomAmount r) := by
  have h1 : (1 / 100 : ℚ) ≤ Sonic.getRandomAmount r := by
    unfold Sonic.getRandomAmount
    have hlo : (1 / 100 : ℚ) ≤ r * (5 / 100 - 1 / 100) + 1 / 100 := by nlinarith
    have e1 : ((100 : ℤ) : ℚ) / 10000 = 1 / 100 := by norm_num
    rw [← e1]
    exact jsToFixed4_ge_grid 100 (by rw [e1]; exact hlo)
  unfold ratToWei
  have h2 : ((10 : ℚ) ^ 16) ≤ Sonic.getRandomAmount r * 10 ^ 18 := by nlinarith
  have h3 : ((10 : ℤ) ^ 16) ≤ Int.floor (Sonic.getRandomAmount r * 10 ^ 18) := by
    rw [Int.le_floor]
    exact_mod_cast h2
  omega

/-- Claim C7 (counterexample): request amounts are not always strictly
positive, and not every operation kind checks the balance.  User input
"-5" is clamped by os.js to amount 0 and `performSwap` then builds and
submits a swap request with amount 0 (the balance check `balance < 0`
cannot fail), violating strict positivity; and `wrapSonic` of the unnamed
script submits its wrap request without consulting any balance at all
(its environment contains no balance to check). -/
theorem c7_counterexample :
    Os.amountInput (Os.PromptInput.parsed (-5)) = some 0
    ∧ ratToWei 0 = 0
    ∧ (Os.performSwap c7Env 0 3).2.1 = [⟨"swap", 0⟩]
    ∧ (Os.performSwap c7Env 0 3).1 = Except.ok true
    ∧ ¬(0 < (0 : Nat))
    ∧ Unnamed.wrapSonic ⟨Except.ok ⟨"0xwrap", Except.ok ⟨1, 3⟩⟩⟩ 7
        = (Except.ok (), [⟨"wrap", 7⟩]) := by
  have hamt : Os.amountInput (Os.PromptInput.parsed (-5)) = some 0 := by
    unfold Os.amountInput Os.parseFloatDefault Os.jsMaxQ
    norm_num
  have hswap : Os.performSwap c7Env 0 3
      = (Except.ok true, [⟨"swap", 0⟩], Os.mkSwaps 3 0) := by
    have hrw : Os.withRetry
        (fun _ => (Except.ok ⟨"0xswap", Except.ok ⟨1, 42⟩⟩ : Except String TxResponse))
        Os.MAX_RETRIES 0 = (Except.ok ⟨"0xswap", Except.ok ⟨1, 42⟩⟩, 1) := by
      rw [Os.withRetry.eq_def]
    unfold Os.performSwap Os.approvalStep c7Env
    rw [hrw]
    norm_num
  refine ⟨hamt, ?_, ?_, ?_, by omega, rfl⟩
  · unfold ratToWei
    norm_num
  · rw [hswap]
  · rw [hswap]

/-- Claim C7 (amended): the balance check holds for the swap and
deposit/stake kinds, and strict positivity for deposit/stake: every swap
request `performSwap` submits has amount at most the wS balance read at
submission time, and every deposit request the `supplyWS` body submits
has a strictly positive amount at most the wS balance it read.  Strict
positivity fails for os.js swaps (amount 0 is possible), and the approve,
withdraw (both sentinel-valued) and wrap / unnamed-script swap requests
are not balance-checked. -/
theorem c7_amount_balance (env : Os.SwapEnv) (amt c : Nat) (senv : Sonic.SupplyEnv)
    (hr : 0 ≤ senv.rand) :
    (∀ req ∈ (Os.performSwap env amt c).2.1, req.kind = "swap" → req.amount ≤ env.balance)
    ∧ (∀ req ∈ (Sonic.supplyWSBody senv).2, req.kind = "deposit" →
        0 < req.amount ∧ req.amount ≤ senv.wsBalance) := by
  constructor
  · intro req hreq hkind
    unfold Os.performSwap at hreq
    by_cases hb : env.balance < amt
    · rw [if_pos hb] at hreq
      simp at hreq
    · rw [if_neg hb] at hreq
      have happrove : ∀ q ∈ (Os.approvalStep env amt).2, q.kind = "approve" := by
        intro q hq
        rw [approvalStep_reqs] at hq
        by_cases ha : env.allowance < amt
        · rw [if_pos ha] at hq
          simp at hq
          subst hq
          rfl
        · rw [if_neg ha] at hq
          simp at hq
      cases hap : Os.approvalStep env amt with
      | mk res reqs =>
        rw [hap] at hreq
        have hreqs : ∀ q ∈ reqs, q.kind = "approve" := by
          intro q hq
          exact happrove q (by rw [hap]; exact hq)
        cases res with
        | error e =>
          simp only [] at hreq
          have := hreqs req hreq
          rw [this] at hkind
          simp at hkind
        | ok u =>
          simp only [] at hreq
          have hmem : req ∈ reqs ++ [(⟨"swap", amt⟩ : OpRequest)] := by
            cases hsw : (Os.withRetry env.batchSwapAttempts Os.MAX_RETRIES 0).1 with
            | error e => rw [hsw] at hreq; simpa using hreq
            | ok tx =>
              rw [hsw] at hreq
              simp only [] at hreq
              cases hw : tx.waitResult with
              | error e => rw [hw] at hreq; simpa using hreq
              | ok r =>
                rw [hw] at hreq
                simp only [] at hreq
                by_cases hst : r.status = 0
                · rw [if_pos hst] at hreq; simpa using hreq
                · rw [if_neg hst] at hreq; simpa using hreq
          rw [List.mem_append] at hmem
          cases hmem with
          | inl hin =>
            have := hreqs req hin
            rw [this] at hkind
            simp at hkind
          | inr hin =>
            simp at hin
            subst hin
            show amt ≤ env.balance
            omega
  · intro req hreq hkind
    unfold Sonic.supplyWSBody at hreq
    have happrove : ∀ q ∈ (Sonic.checkApproval senv).2, q.kind = "approve" := by
      intro q hq
      rw [checkApproval_reqs] at hq
      by_cases ha : senv.allowance < 10 * 10 ^ 18
      · rw [if_pos ha] at hq
        simp at hq
        subst hq
        rfl
      · rw [if_neg ha] at hq
        simp at hq
    cases hap : Sonic.checkApproval senv with
    | mk res reqs =>
      rw [hap] at hreq
      have hreqs : ∀ q ∈ reqs, q.kind = "approve" := by
        intro q hq
        exact happrove q (by rw [hap]; exact hq)
      have hfromreqs : req ∈ reqs → 0 < req.amount ∧ req.amount ≤ senv.wsBalance := by
        intro hin
        have := hreqs req hin
        rw [this] at hkind
        simp at hkind
      cases res with
      | error e =>
        simp only [] at hreq
        exact hfromreqs hreq
      | ok u =>
        simp only [] at hreq
        cases hres : Sonic.checkReserveStatus senv with
        | error e => rw [hres] at hreq; simp only [] at hreq; exact hfromreqs hreq
        | ok liq =>
          rw [hres] at hreq
          simp only [] at hreq
          by_cases h1 : senv.wsBalance < ratToWei (Sonic.getRandomAmount senv.rand)
          · rw [if_pos h1] at hreq
            exact hfromreqs hreq
          · rw [if_neg h1] at hreq
            by_cases h2 : senv.ethBalance < 10 ^ 16
            · rw [if_pos h2] at hreq
              exact hfromreqs hreq
            · rw [if_neg h2] at hreq
              have hmem : req ∈ reqs
                  ++ [(⟨"deposit", ratToWei (Sonic.getRandomAmount senv.rand)⟩ : OpRequest)] := by
                cases hdep : senv.depositTx with
                | error e => rw [hdep] at hreq; simpa using hreq
                | ok tx =>
                  rw [hdep] at hreq
                  simp only [] at hreq
                  cases hw : tx.waitResult with
                  | error e => rw [hw] at hreq; simpa using hreq
                  | ok r =>
                    rw [hw] at hreq
                    simp only [] at hreq
                    by_cases hst : r.status = 0
                    · rw [if_pos hst] at hreq; simpa using hreq
                    · rw [if_neg hst] at hreq; simpa using hreq
              rw [List.mem_append] at hmem
              cases hmem with
              | inl hin => exact hfromreqs hin
              | inr hin =>
                simp at hin
                subst hin
                have := sonic_stake_wei_pos hr
                constructor
                · simp only []
                  omega
                · simp only []
                  omega

/-- Witness for `c7_amount_balance` at the concrete environments `c7Env`
and `c7SupplyEnv`. -/
theorem c7_amount_balance_witness :
    (0 : ℚ) ≤ c7SupplyEnv.rand
    ∧ ((∀ req ∈ (Os.performSwap c7Env 0 3).2.1,
          req.kind = "swap" → req.amount ≤ c7Env.balance)
      ∧ (∀ req ∈ (Sonic.supplyWSBody c7SupplyEnv).2, req.kind = "deposit" →
          0 < req.amount ∧ req.amount ≤ c7SupplyEnv.wsBalance)) :=
  ⟨by norm_num [c7SupplyEnv],
    c7_amount_balance c7Env 0 3 c7SupplyEnv (by norm_num [c7SupplyEnv])⟩

/-- Claim C10 (counterexample): the bounds do NOT hold for every
interactive input string.  The os.js source computes
`Math.max(parseInt(answer || 5), 1)`: the `|| default` applies to the
answer string, so only a blank answer gets the default; a non-blank
non-numeric answer parses to `NaN`, which propagates through every
`Math.max`/`Math.min` — iterations, interval, amount and hop count all
become `NaN` (none of them ≥ 1, ≥ 0, or in [1, 3]), and
`POOL_IDS.slice(0, NaN)` builds an empty swap path instead of one with
the claimed number of hops. -/
theorem c10_counterexample :
    Os.iterationsInput Os.PromptInput.notNumeric = none
    ∧ Os.intervalInput Os.PromptInput.notNumeric = none
    ∧ Os.amountInput Os.PromptInput.notNumeric = none
    ∧ Os.hopsInput Os.PromptInput.notNumeric = none
    ∧ Os.mkSwapsJs (Os.hopsInput Os.PromptInput.notNumeric) 5 = []
    ∧ ¬∃ h : Int, Os.hopsInput Os.PromptInput.notNumeric = some h ∧ 1 ≤ h ∧ h ≤ 3 := by
  refine ⟨rfl, rfl, rfl, rfl, rfl, ?_⟩
  rintro ⟨h, hh, -, -⟩
  simp [Os.hopsInput, Os.jsMin, Os.jsMax, Os.parseIntDefault] at hh

/-- Claim C10 (amended): for blank or numeric interactive input the
parsed run configuration is clamped into range — iterations ≥ 1,
interval ≥ 1 minute, amount ≥ 0, hop count in [1, 3], with out-of-range
numeric input clamped rather than rejected, blank input getting the
defaults (5, 5, 0.0001, 3), and the swap path built from an in-range hop
count using exactly that many pool hops.  Non-blank non-numeric input is
the exception: the `|| default` applies to the answer string before
parsing, so such input yields `NaN` for every configuration value and an
empty swap path. -/
theorem c10_numeric_input_clamping (x y z : Int) (q : ℚ) (w : Nat) :
    (Os.iterationsInput (Os.PromptInput.parsed x) = some (max x 1) ∧ 1 ≤ max x 1)
    ∧ Os.iterationsInput Os.PromptInput.blank = some 5
    ∧ (Os.intervalInput (Os.PromptInput.parsed y) = some (max y 1) ∧ 1 ≤ max y 1)
    ∧ Os.intervalInput Os.PromptInput.blank = some 5
    ∧ (Os.amountInput (Os.PromptInput.parsed q) = some (max q 0) ∧ 0 ≤ max q 0)
    ∧ Os.amountInput Os.PromptInput.blank = some (1 / 10000)
    ∧ (Os.hopsInput (Os.PromptInput.parsed z) = some (min (max z 1) 3)
        ∧ 1 ≤ min (max z 1) 3 ∧ min (max z 1) 3 ≤ 3
        ∧ (Os.mkSwapsJs (some (min (max z 1) 3)) w).length = (min (max z 1) 3).toNat)
    ∧ (Os.hopsInput Os.PromptInput.blank = some 3
        ∧ (Os.mkSwapsJs (Os.hopsInput Os.PromptInput.blank) w).length = 3)
    ∧ (Os.iterationsInput Os.PromptInput.notNumeric = none
        ∧ Os.hopsInput Os.PromptInput.notNumeric = none
        ∧ Os.mkSwapsJs (Os.hopsInput Os.PromptInput.notNumeric) w = []) := by
  refine ⟨⟨rfl, le_max_right x 1⟩, ?_, ⟨rfl, le_max_right y 1⟩, ?_,
    ⟨rfl, le_max_right q 0⟩, ?_, ⟨rfl, by omega, by omega, ?_⟩, ⟨?_, ?_⟩, rfl, rfl, rfl⟩
  · norm_num [Os.iterationsInput, Os.parseIntDefault, Os.jsMax]
  · norm_num [Os.intervalInput, Os.parseIntDefault, Os.jsMax]
  · norm_num [Os.amountInput, Os.parseFloatDefault, Os.jsMaxQ]
  · unfold Os.mkSwapsJs Os.sliceEnd3
    simp only []
    rw [if_neg (by omega)]
    unfold Os.mkSwaps
    rw [List.length_map, List.enum_length, List.length_take]
    have h3 : Os.POOL_IDS.length = 3 := rfl
    rw [h3]
    omega
  · norm_num [Os.hopsInput, Os.parseIntDefault, Os.jsMax, Os.jsMin]
  · norm_num [Os.hopsInput, Os.parseIntDefault, Os.jsMax, Os.jsMin, Os.mkSwapsJs,
      Os.sliceEnd3, Os.mkSwaps, Os.POOL_IDS]
    rfl

/-- Witness for `c10_numeric_input_clamping` at out-of-range concrete
inputs (`-7` iterations, `0` interval, `-3` amount, `99` hops). -/
theorem c10_numeric_input_clamping_witness :
    (Os.iterationsInput (Os.PromptInput.parsed (-7)) = some (max (-7 : Int) 1)
        ∧ 1 ≤ max (-7 : Int) 1)
    ∧ Os.iterationsInput Os.PromptInput.blank = some 5
    ∧ (Os.intervalInput (Os.PromptInput.parsed 0) = some (max (0 : Int) 1)
        ∧ 1 ≤ max (0 : Int) 1)
    ∧ Os.intervalInput Os.PromptInput.blank = some 5
    ∧ (Os.amountInput (Os.PromptInput.parsed (-3)) = some (max (-3 : ℚ) 0)
        ∧ 0 ≤ max (-3 : ℚ) 0)
    ∧ Os.amountInput Os.PromptInput.blank = some (1 / 10000)
    ∧ (Os.hopsInput (Os.PromptInput.parsed 99) = some (min (max (99 : Int) 1) 3)
        ∧ 1 ≤ min (max (99 : Int) 1) 3 ∧ min (max (99 : Int) 1) 3 ≤ 3
        ∧ (Os.mkSwapsJs (some (min (max (99 : Int) 1) 3)) 5).length
            = (min (max (99 : Int) 1) 3).toNat)
    ∧ (Os.hopsInput Os.PromptInput.blank = some 3
        ∧ (Os.mkSwapsJs (Os.hopsInput Os.PromptInput.blank) 5).length = 3)
    ∧ (Os.iterationsInput Os.PromptInput.notNumeric = none
        ∧ Os.hopsInput Os.PromptInput.notNumeric = none
        ∧ Os.mkSwapsJs (Os.hopsInput Os.PromptInput.notNumeric) 5 = []) :=
  c10_numeric_input_clamping (-7) 0 99 (-3) 5

/-- Claim C3: a failed cycle never aborts the batch.  In both the
sonic.js cycle loop and the os.js per-wallet iteration loop, for every
cycle index `1 ≤ i ≤ n` and any per-cycle outcomes — including a failure
of cycle `i` after the retry wrapper exhausted its attempts — cycle `i`
is started, its failure (if any) is logged as a failed-cycle event, and
when `i < n` the inter-cycle delay is still performed; every cycle index
up to `n` appears in the trace regardless of other cycles' outcomes. -/
theorem c3_cycle_failure_isolation (body : Nat → Except String Unit) (n i : Nat)
    (h1 : 1 ≤ i) (h2 : i ≤ n) :
    (CycleEvent.cycleStart i ∈ Sonic.mainLoop body n
      ∧ (∀ e, body i = Except.error e → CycleEvent.cycleFailed i ∈ Sonic.mainLoop body n)
      ∧ (i < n → CycleEvent.interCycleDelay i ∈ Sonic.mainLoop body n))
    ∧ (CycleEvent.cycleStart i ∈ Os.processWallet body n
      ∧ (∀ e, body i = Except.error e → CycleEvent.cycleFailed i ∈ Os.processWallet body n)
      ∧ (i < n → CycleEvent.interCycleDelay i ∈ Os.processWallet body n)) := by
  have heq : Os.processWallet body n = Sonic.mainLoop body n := rfl
  have hk : i - 1 < n := by omega
  have hi : i - 1 + 1 = i := by omega
  have hstart : CycleEvent.cycleStart i ∈ Sonic.mainLoop body n := by
    unfold Sonic.mainLoop
    rw [List.mem_flatMap]
    refine ⟨i - 1, List.mem_range.mpr hk, ?_⟩
    rw [hi]
    exact List.mem_cons_self _ _
  have hfail : ∀ e, body i = Except.error e →
      CycleEvent.cycleFailed i ∈ Sonic.mainLoop body n := by
    intro e he
    unfold Sonic.mainLoop
    rw [List.mem_flatMap]
    refine ⟨i - 1, List.mem_range.mpr hk, ?_⟩
    rw [hi, he]
    simp
  have hdelay : i < n → CycleEvent.interCycleDelay i ∈ Sonic.mainLoop body n := by
    intro hlt
    unfold Sonic.mainLoop
    rw [List.mem_flatMap]
    refine ⟨i - 1, List.mem_range.mpr hk, ?_⟩
    rw [hi]
    cases hb : body i <;> simp [hlt]
  exact ⟨⟨hstart, hfail, hdelay⟩, by rw [heq]; exact ⟨hstart, hfail, hdelay⟩⟩

/-- Witness for `c3_cycle_failure_isolation`: in a 5-cycle run whose
cycle 2 always fails, cycle 2 is started, logged as failed, and followed
by the inter-cycle delay. -/
theorem c3_cycle_failure_isolation_witness :
    1 ≤ 2 ∧ 2 ≤ 5 ∧
    ((CycleEvent.cycleStart 2 ∈ Sonic.mainLoop (fun _ => Except.error "irrecoverable") 5
      ∧ (∀ e, (fun (_ : Nat) => (Except.error "irrecoverable" : Except String Unit)) 2
            = Except.error e →
          CycleEvent.cycleFailed 2 ∈ Sonic.mainLoop (fun _ => Except.error "irrecoverable") 5)
      ∧ (2 < 5 → CycleEvent.interCycleDelay 2
          ∈ Sonic.mainLoop (fun _ => Except.error "irrecoverable") 5))
    ∧ (CycleEvent.cycleStart 2 ∈ Os.processWallet (fun _ => Except.error "irrecoverable") 5
      ∧ (∀ e, (fun (_ : Nat) => (Except.error "irrecoverable" : Except String Unit)) 2
            = Except.error e →
          CycleEvent.cycleFailed 2 ∈ Os.processWallet (fun _ => Except.error "irrecoverable") 5)
      ∧ (2 < 5 → CycleEvent.interCycleDelay 2
          ∈ Os.processWallet (fun _ => Except.error "irrecoverable") 5))) :=
  ⟨by omega, by omega,
    c3_cycle_failure_isolation (fun _ => Except.error "irrecoverable") 5 2 (by omega) (by omega)⟩

/-- Claim C8: exit codes.  os.js: an empty credential list exits with
code 1 before any network interaction (empty trace), and with a nonempty
list containing at least one valid key the process exits 0 on completion
regardless of per-iteration outcomes (including failing cycles).
sonic.js: a missing credential makes wallet construction throw at module
load (exit code 1, nothing run); otherwise `main`'s `finally` always
exits 0, again regardless of cycle outcomes. -/
theorem c8_exit_codes (keys : List String) (validKey : String → Bool)
    (walletBody : Nat → Nat → Except String Unit) (iters : Nat) (key : String)
    (body : Nat → Except String Unit) (n : Nat)
    (hkeys : keys ≠ []) (hvalid : keys.filter validKey ≠ []) :
    Os.mainExit [] validKey walletBody iters = (1, [])
    ∧ (Os.mainExit keys validKey walletBody iters).1 = 0
    ∧ Sonic.processExit none body n = (1, [])
    ∧ (Sonic.processExit (some key) body n).1 = 0 := by
  refine ⟨rfl, ?_, rfl, rfl⟩
  unfold Os.mainExit
  rw [if_neg (by rw [List.length_eq_zero]; exact hkeys)]
  simp only []
  rw [if_neg (by rw [List.length_eq_zero]; exact hvalid)]

/-- Witness for `c8_exit_codes`: two keys of which one is valid, every
iteration of every wallet failing — the run still exits 0; the missing
and empty-list cases exit 1 with an empty trace. -/
theorem c8_exit_codes_witness :
    (["k1", "bad"] : List String) ≠ []
    ∧ (["k1", "bad"].filter (fun s => s == "k1")) ≠ []
    ∧ (Os.mainExit [] (fun s => s == "k1") (fun _ _ => Except.error "boom") 2 = (1, [])
      ∧ (Os.mainExit ["k1", "bad"] (fun s => s == "k1") (fun _ _ => Except.error "boom") 2).1 = 0
      ∧ Sonic.processExit none (fun _ => Except.error "boom") 2 = (1, [])
      ∧ (Sonic.processExit (some "k") (fun _ => Except.error "boom") 2).1 = 0) :=
  ⟨by simp, by simp,
    c8_exit_codes ["k1", "bad"] (fun s => s == "k1") (fun _ _ => Except.error "boom") 2 "k"
      (fun _ => Except.error "boom") 2 (by simp) (by simp)⟩
